import Mathlib

/-!
Verification development for the tourist-safety application core
(`touristapp/app/services/location.ts`, `touristapp/app/services/emergency.ts`,
`touristapp/app/(tabs)/index.tsx`).

The TypeScript source is shallowly embedded below:

* `calculateDistance` / `calculateSpeed` mirror the haversine distance and
  speed helpers of `LocationService` (floating-point `Math.sin` etc. are
  modelled by their real-number counterparts; `Math.atan2 y x` is modelled
  by `Complex.arg (x + y*I)`, which has the same quadrant convention).
* `pushFix` mirrors the body of the `watchPositionAsync` callback in
  `startTracking`: `history.push(fix)` followed by
  `if (history.length > 50) history = history.slice(-50)`.
* `checkGeofenceViolation` mirrors `EmergencyService.checkGeofenceViolation`:
  scan the configured restricted areas in declaration order, and on the first
  area whose centre is within `radius` of the fix, emit one geofence alert
  (`triggerGeofenceAlert`, modelled by recording the area name) and return
  `true` immediately.
* `triggerPanicAlert` mirrors `EmergencyService.triggerPanicAlert`; the
  collaborator failures (backend send, contact notification) are injected as
  boolean fault parameters whose raised errors are caught and swallowed
  exactly where the source wraps them in `try { ... } catch { log }`.
* `SafetyState` together with `startPanicSequence`, `cancelPanicSequence`,
  `tickTimer` / `tickAll` mirrors the panic-button component of the Safety
  screen: `setInterval` registrations are kept in a list of live timers,
  `countdownRef` holds the id of the most recently registered interval, and
  one `tickAll` step is one second of elapsed time firing every live
  interval once, in registration order.
-/

open Real

/-- A latitude/longitude pair in degrees (the part of `LocationData` the
distance computation reads). -/
structure Coord where
  latitude : ℝ
  longitude : ℝ

/-- Model of `Math.atan2 y x`: the argument of the complex number
`x + y*I` (same range `(-π, π]` and the same quadrant convention). -/
noncomputable def atan2 (y x : ℝ) : ℝ := Complex.arg ⟨x, y⟩

/-- Embedding of `calculateDistance` (identical in `location.ts` lines
197-210 and `emergency.ts` lines 205-218): haversine great-circle distance
on a sphere of radius 6,371,000 m, inputs in degrees, output in meters. -/
noncomputable def calculateDistance (loc1 loc2 : Coord) : ℝ :=
  let R : ℝ := 6371e3
  let phi1 := loc1.latitude * π / 180
  let phi2 := loc2.latitude * π / 180
  let dPhi := (loc2.latitude - loc1.latitude) * π / 180
  let dLam := (loc2.longitude - loc1.longitude) * π / 180
  let a := Real.sin (dPhi / 2) * Real.sin (dPhi / 2) +
           Real.cos phi1 * Real.cos phi2 *
           Real.sin (dLam / 2) * Real.sin (dLam / 2)
  let c := 2 * atan2 (Real.sqrt a) (Real.sqrt (1 - a))
  R * c

lemma atan2_zero_one : atan2 0 1 = 0 := by
  have h : (⟨1, 0⟩ : ℂ) = 1 := rfl
  simp [atan2, h, Complex.arg_one]

lemma calculateDistance_self (p : Coord) : calculateDistance p p = 0 := by
  simp [calculateDistance, atan2_zero_one]

lemma calculateDistance_comm (a b : Coord) :
    calculateDistance a b = calculateDistance b a := by
  unfold calculateDistance
  have hPhi : (a.latitude - b.latitude) * π / 180 / 2
      = -((b.latitude - a.latitude) * π / 180 / 2) := by ring
  have hLam : (a.longitude - b.longitude) * π / 180 / 2
      = -((b.longitude - a.longitude) * π / 180 / 2) := by ring
  simp only [hPhi, hLam, Real.sin_neg]
  ring_nf

lemma atan2_nonneg {y : ℝ} (x : ℝ) (hy : 0 ≤ y) : 0 ≤ atan2 y x :=
  Complex.arg_nonneg_iff.2 hy

lemma calculateDistance_nonneg (a b : Coord) :
    0 ≤ calculateDistance a b := by
  unfold calculateDistance
  refine mul_nonneg (by norm_num) (mul_nonneg (by norm_num) ?_)
  exact atan2_nonneg _ (Real.sqrt_nonneg _)

/-- The part of `LocationData` (`location.ts` lines 4-10) that the core
logic reads: coordinates, the optional accuracy/address metadata, and the
timestamp in milliseconds since the epoch (`Date.getTime()`). -/
structure LocationData extends Coord where
  accuracy : Option ℝ := none
  timestamp : ℝ
  address : Option String := none

/-- Embedding of `calculateSpeed` (`location.ts` lines 212-216):
`timeDiff > 0 ? distance / timeDiff : 0` with `timeDiff` in seconds. -/
noncomputable def calculateSpeed (loc1 loc2 : LocationData) : ℝ :=
  let distance := calculateDistance loc1.toCoord loc2.toCoord
  let timeDiff := (loc2.timestamp - loc1.timestamp) / 1000
  if timeDiff > 0 then distance / timeDiff else 0

/-- Embedding of the fix callback body of `startTracking` (`location.ts`
lines 112-117): `locationHistory.push(locationData)` followed by
`if (locationHistory.length > 50) locationHistory = locationHistory.slice(-50)`
(`slice(-50)` keeps the last 50 elements). -/
def pushFix (locationHistory : List LocationData) (fix : LocationData) :
    List LocationData :=
  let h := locationHistory ++ [fix]
  if h.length > 50 then h.drop (h.length - 50) else h

/-- The last `n` elements of a list, in order (specification vocabulary for
"the most recent `n` fixes, oldest evicted first"). -/
def lastN (n : ℕ) (l : List α) : List α := (l.reverse.take n).reverse

lemma lastN_length_le (n : ℕ) (l : List α) : (lastN n l).length ≤ n := by
  simp [lastN]

lemma lastN_of_length_le {n : ℕ} {l : List α} (h : l.length ≤ n) :
    lastN n l = l := by
  simp [lastN, List.take_of_length_le, h]

lemma drop_eq_lastN (n : ℕ) (l : List α) :
    l.drop (l.length - n) = lastN n l := by
  simp [lastN, List.reverse_take]

lemma pushFix_eq_lastN (h : List LocationData) (f : LocationData) :
    pushFix h f = lastN 50 (h ++ [f]) := by
  unfold pushFix
  by_cases hl : (h ++ [f]).length > 50
  · simp only [if_pos hl, drop_eq_lastN]
  · simp only [if_neg hl]
    exact (lastN_of_length_le (by omega)).symm

lemma lastN_append_lastN (n : ℕ) (l r : List α) :
    lastN n (lastN n l ++ r) = lastN n (l ++ r) := by
  unfold lastN
  rw [List.reverse_append, List.reverse_reverse, List.reverse_append]
  congr 1
  rw [List.take_append_eq_append_take, List.take_append_eq_append_take,
    List.take_take, Nat.min_eq_left (Nat.sub_le _ _)]

lemma foldl_pushFix (fixes : List LocationData) :
    ∀ h : List LocationData, h.length ≤ 50 →
      List.foldl pushFix h fixes = lastN 50 (h ++ fixes) := by
  induction fixes with
  | nil => intro h hh; simp [lastN_of_length_le, hh]
  | cons f fs ih =>
      intro h hh
      have hlen : (pushFix h f).length ≤ 50 := by
        rw [pushFix_eq_lastN]; exact lastN_length_le _ _
      calc List.foldl pushFix h (f :: fs)
          = List.foldl pushFix (pushFix h f) fs := rfl
        _ = lastN 50 (pushFix h f ++ fs) := ih _ hlen
        _ = lastN 50 (lastN 50 (h ++ [f]) ++ fs) := by rw [pushFix_eq_lastN]
        _ = lastN 50 ((h ++ [f]) ++ fs) := lastN_append_lastN _ _ _
        _ = lastN 50 (h ++ f :: fs) := by simp

lemma pushFix_length_le (h : List LocationData) (f : LocationData) :
    (pushFix h f).length ≤ 50 := by
  rw [pushFix_eq_lastN]; exact lastN_length_le _ _

/-- A restricted area as configured in `checkGeofenceViolation`
(`emergency.ts` lines 180-183). -/
structure RestrictedArea where
  lat : ℝ
  lng : ℝ
  radius : ℝ
  name : String

/-- The static zone configuration hard-coded in `checkGeofenceViolation`. -/
noncomputable def restrictedAreas : List RestrictedArea :=
  [⟨25.5788, 91.8933, 1000, "Restricted Military Zone"⟩,
   ⟨25.4670, 91.3662, 500, "Protected Forest Area"⟩]

/-- Embedding of `EmergencyService.checkGeofenceViolation` (`emergency.ts`
lines 174-203), generalised over the scanned area list (the source always
passes `restrictedAreas`).  The loop computes the haversine distance from
the fix to each area centre in declaration order; on the first area with
`distance <= area.radius` it calls `triggerGeofenceAlert` — a haptic pulse
plus a UI alert naming the area, modelled by recording the area name — and
returns `true` immediately.  If no area matches it returns `false` and
emits nothing.  The result is the returned boolean paired with the list of
alerts emitted by the call. -/
noncomputable def checkGeofenceViolation (areas : List RestrictedArea)
    (location : Coord) : Bool × List String :=
  match areas with
  | [] => (false, [])
  | area :: rest =>
      if calculateDistance location ⟨area.lat, area.lng⟩ ≤ area.radius then
        (true, [area.name])
      else
        checkGeofenceViolation rest location

/-- A stream of fixes fed one by one through `checkGeofenceViolation`, as
the tracking callback does; collects every geofence alert emitted. -/
noncomputable def processFixes (areas : List RestrictedArea)
    (fixes : List Coord) : List String :=
  fixes.foldl (fun acc fix => acc ++ (checkGeofenceViolation areas fix).2) []

lemma checkGeofenceViolation_eq_find (areas : List RestrictedArea)
    (location : Coord) :
    checkGeofenceViolation areas location =
      match areas.find? (fun area =>
          decide (calculateDistance location ⟨area.lat, area.lng⟩ ≤ area.radius)) with
      | some area => (true, [area.name])
      | none => (false, []) := by
  induction areas with
  | nil => rfl
  | cons area rest ih =>
      by_cases hd : calculateDistance location ⟨area.lat, area.lng⟩ ≤ area.radius
      · simp [checkGeofenceViolation, hd, List.find?]
      · simp only [checkGeofenceViolation, if_neg hd, List.find?,
          decide_eq_true_eq, hd, decide_False]
        exact ih

lemma checkGeofenceViolation_fst_iff (areas : List RestrictedArea)
    (location : Coord) :
    (checkGeofenceViolation areas location).1 = true ↔
      ∃ area ∈ areas,
        calculateDistance location ⟨area.lat, area.lng⟩ ≤ area.radius := by
  induction areas with
  | nil => simp [checkGeofenceViolation]
  | cons area rest ih =>
      by_cases hd : calculateDistance location ⟨area.lat, area.lng⟩ ≤ area.radius
      · simp [checkGeofenceViolation, hd]
      · simp [checkGeofenceViolation, hd, ih]

lemma checkGeofenceViolation_snd_length (areas : List RestrictedArea)
    (location : Coord) :
    (checkGeofenceViolation areas location).2.length =
      if (checkGeofenceViolation areas location).1 then 1 else 0 := by
  induction areas with
  | nil => simp [checkGeofenceViolation]
  | cons area rest ih =>
      by_cases hd : calculateDistance location ⟨area.lat, area.lng⟩ ≤ area.radius
      · simp [checkGeofenceViolation, hd]
      · simpa [checkGeofenceViolation, hd] using ih

lemma checkGeofenceViolation_center :
    checkGeofenceViolation restrictedAreas ⟨25.5788, 91.8933⟩ =
      (true, ["Restricted Military Zone"]) := by
  have h0 : calculateDistance ⟨25.5788, 91.8933⟩ ⟨25.5788, 91.8933⟩ = 0 :=
    calculateDistance_self _
  simp [restrictedAreas, checkGeofenceViolation, h0]

lemma checkGeofenceViolation_far (areas : List RestrictedArea)
    (location : Coord)
    (hfar : ∀ area ∈ areas,
      area.radius < calculateDistance location ⟨area.lat, area.lng⟩) :
    checkGeofenceViolation areas location = (false, []) := by
  induction areas with
  | nil => rfl
  | cons area rest ih =>
      have hd : ¬ calculateDistance location ⟨area.lat, area.lng⟩ ≤ area.radius :=
        not_le.2 (hfar area (by simp))
      simp only [checkGeofenceViolation, if_neg hd]
      exact ih (fun a ha => hfar a (by simp [ha]))

lemma processFixes_length (areas : List RestrictedArea) (fixes : List Coord) :
    (processFixes areas fixes).length =
      fixes.countP (fun fix => (checkGeofenceViolation areas fix).1) := by
  suffices h : ∀ acc : List String,
      (fixes.foldl (fun acc fix => acc ++ (checkGeofenceViolation areas fix).2) acc).length
        = acc.length + fixes.countP (fun fix => (checkGeofenceViolation areas fix).1) by
    simpa [processFixes] using h []
  induction fixes with
  | nil => intro acc; simp
  | cons fix rest ih =>
      intro acc
      by_cases hv : (checkGeofenceViolation areas fix).1
      · have hlen := checkGeofenceViolation_snd_length areas fix
        rw [hv, if_pos rfl] at hlen
        simp [List.foldl_cons, ih, hlen, List.countP_cons, hv]
        omega
      · have hlen := checkGeofenceViolation_snd_length areas fix
        rw [Bool.not_eq_true] at hv
        rw [hv] at hlen
        simp at hlen
        simp [List.foldl_cons, ih, hlen, List.countP_cons, hv]

/-- Alert kinds (`emergency.ts` line 16). -/
inductive AlertType
  | sos | medical | security | geofence
deriving DecidableEq, Repr

/-- Alert lifecycle status (`emergency.ts` line 24). -/
inductive AlertStatus
  | sent | acknowledged | resolved
deriving DecidableEq, Repr

/-- Embedding of the `EmergencyAlert` record (`emergency.ts` lines 14-26). -/
structure EmergencyAlert where
  id : String
  type : AlertType
  message : String
  latitude : ℝ
  longitude : ℝ
  address : Option String
  timestamp : ℕ
  status : AlertStatus
  contacts : List String

/-- Embedding of `EmergencyContact` (`emergency.ts` lines 7-12). -/
structure EmergencyContact where
  name : String
  phone : String
  relationship : String
  type : String

/-- The default contact list of `EmergencyService` (`emergency.ts`
lines 29-33). -/
def defaultEmergencyContacts : List EmergencyContact :=
  [⟨"Local Police", "100", "Authority", "authority"⟩,
   ⟨"Tourist Helpline", "1363", "Authority", "authority"⟩,
   ⟨"Medical Emergency", "108", "Authority", "authority"⟩]

/-- The `EmergencyAlert` built by `triggerPanicAlert` on a successful
location fetch (`emergency.ts` lines 50-62): id derived from the current
time, kind `sos`, status `sent`, the fix's coordinates and address, and the
phone numbers of every emergency contact. -/
noncomputable def mkPanicAlert (now : ℕ) (message : Option String)
    (location : LocationData) : EmergencyAlert where
  id := s!"EMERGENCY-{now}"
  type := AlertType.sos
  message := message.getD "Emergency assistance required"
  latitude := location.latitude
  longitude := location.longitude
  address := location.address
  timestamp := now
  status := AlertStatus.sent
  contacts := defaultEmergencyContacts.map (fun c => c.phone)

/-- The body of `sendEmergencyAlert` before its `catch` (`emergency.ts`
lines 81-106): reads storage and posts the payload to the backend; a
backend/storage failure raises an error.  The fault is injected through
`backendFails`. -/
def sendEmergencyAlertRaw (backendFails : Bool) : Except String Unit :=
  if backendFails then Except.error "NetworkFailure" else Except.ok ()

/-- Embedding of `sendEmergencyAlert` (`emergency.ts` lines 80-110): the whole body is
wrapped in `try { ... } catch (error) { console.error(...) }`, so a raised
backend failure is logged and swallowed — the caller observes nothing. -/
def sendEmergencyAlert (backendFails : Bool) : Unit :=
  match sendEmergencyAlertRaw backendFails with
  | Except.ok u => u
  | Except.error _ => ()

/-- The body of `notifyEmergencyContacts` before its `catch`
(`emergency.ts` lines 113-134); the fault is injected through
`notifyFails`. -/
def notifyEmergencyContactsRaw (notifyFails : Bool) : Except String Unit :=
  if notifyFails then Except.error "NotificationFailure" else Except.ok ()

/-- Embedding of `notifyEmergencyContacts` (`emergency.ts` lines 112-138): also wrapped
in `try/catch`, so a notification failure is logged and swallowed. -/
def notifyEmergencyContacts (notifyFails : Bool) : Unit :=
  match notifyEmergencyContactsRaw notifyFails with
  | Except.ok u => u
  | Except.error _ => ()

/-- Embedding of `EmergencyService.triggerPanicAlert` (`emergency.ts`
lines 37-78).  `currentLocation` is the result of the
`LocationService.getCurrentLocation()` collaborator call (`none` = no fix
obtainable; that function catches its own errors and returns `null`).
When the fix is missing the function shows an error dialog and returns
`false` without touching the alert history.  Otherwise it builds the alert,
`unshift`s it onto the history (most-recent-first), runs the backend send
and the contact notification — both of which swallow their own failures —
and returns `true`.  The result is the returned boolean paired with the
updated alert history. -/
noncomputable def triggerPanicAlert (now : ℕ) (message : Option String)
    (currentLocation : Option LocationData)
    (backendFails notifyFails : Bool)
    (alertHistory : List EmergencyAlert) : Bool × List EmergencyAlert :=
  match currentLocation with
  | none => (false, alertHistory)
  | some location =>
      let alert := mkPanicAlert now message location
      let history1 := alert :: alertHistory
      let _ := sendEmergencyAlert backendFails
      let _ := notifyEmergencyContacts notifyFails
      (true, history1)

lemma triggerPanicAlert_none (now : ℕ) (message : Option String)
    (backendFails notifyFails : Bool) (alertHistory : List EmergencyAlert) :
    triggerPanicAlert now message none backendFails notifyFails alertHistory
      = (false, alertHistory) := rfl

lemma triggerPanicAlert_some (now : ℕ) (message : Option String)
    (location : LocationData) (backendFails notifyFails : Bool)
    (alertHistory : List EmergencyAlert) :
    triggerPanicAlert now message (some location) backendFails notifyFails
        alertHistory
      = (true, mkPanicAlert now message location :: alertHistory) := rfl

/-- One live `setInterval` registration created by `startPanicSequence`:
its timer id and the closure variable `count` (`index.tsx` line 735). -/
structure TimerRec where
  id : ℕ
  count : ℤ
deriving DecidableEq, Repr

/-- The state of the Safety screen's panic-button component
(`index.tsx` lines 680-686) together with the scheduler bookkeeping needed
to model `setInterval`/`clearInterval`/`clearTimeout`:

* `emergencyActive`, `panicPressed`, `countdown` — the three `useState`
  hooks;
* `countdownRef` — the id stored in `countdownRef.current`
  (`none` = `null`);
* `timers` — every live interval, in registration order;
* `nextId` — fresh-id supply for new intervals;
* `sosAlerts` — how many sos alerts `EmergencyService.triggerPanicAlert`
  has produced (an alert is produced only when the location fetch
  succeeds). -/
structure SafetyState where
  emergencyActive : Bool
  panicPressed : Bool
  countdown : ℤ
  countdownRef : Option ℕ
  timers : List TimerRec
  nextId : ℕ
  sosAlerts : ℕ
deriving DecidableEq, Repr

/-- The component's initial state: hooks start at
`false / false / 0 / null` with no scheduled interval. -/
def initialSafetyState : SafetyState :=
  { emergencyActive := false
    panicPressed := false
    countdown := 0
    countdownRef := none
    timers := []
    nextId := 0
    sosAlerts := 0 }

/-- Embedding of `startPanicSequence` (`index.tsx` lines 727-761):
unconditionally sets `panicPressed := true` and `countdown := 3`, fires a
haptic pulse and a button animation (pure effects, not modelled), registers
a fresh 1-second interval whose closure variable `count` starts at 3, and
stores the new interval's id in `countdownRef.current`.  Note there is no
guard on the current state. -/
def startPanicSequence (s : SafetyState) : SafetyState :=
  { s with
    panicPressed := true
    countdown := 3
    timers := s.timers ++ [⟨s.nextId, 3⟩]
    countdownRef := some s.nextId
    nextId := s.nextId + 1 }

/-- Embedding of `cancelPanicSequence` (`index.tsx` lines 763-771): clears
the interval whose id is in `countdownRef.current` (if any), nulls the ref,
and resets `panicPressed` and `countdown`.  Intervals not referenced by
`countdownRef` are untouched. -/
def cancelPanicSequence (s : SafetyState) : SafetyState :=
  let timers' := match s.countdownRef with
    | some tid => s.timers.filter (fun t => t.id ≠ tid)
    | none => s.timers
  { s with
    timers := timers'
    countdownRef := none
    panicPressed := false
    countdown := 0 }

/-- Embedding of `triggerEmergency` (`index.tsx` lines 773-822):
`setEmergencyActive(true)`, `setPanicPressed(false)`, then
`EmergencyService.triggerPanicAlert(...)`.  `locOk` says whether the
location fetch inside that call succeeds: on success one sos alert is
created and the component stays in the emergency-active state; on failure
no alert is created and `setEmergencyActive(false)` rolls the flag back
(line 819). -/
def triggerEmergency (locOk : Bool) (s : SafetyState) : SafetyState :=
  let s1 := { s with emergencyActive := true, panicPressed := false }
  if locOk then { s1 with sosAlerts := s1.sosAlerts + 1 }
  else { s1 with emergencyActive := false }

/-- One firing of the interval body registered by `startPanicSequence`
(`index.tsx` lines 736-744) for the interval with id `tid`: decrement the
closure's `count`, `setCountdown(count)`, and when `count <= 0` clear this
interval (its own id, captured in the closure) and call
`triggerEmergency`.  Firing an id that is no longer live does nothing. -/
def tickTimer (locOk : Bool) (s : SafetyState) (tid : ℕ) : SafetyState :=
  match s.timers.find? (fun t => t.id == tid) with
  | none => s
  | some t =>
      let count := t.count - 1
      let s1 := { s with
        countdown := count
        timers := s.timers.map (fun u => if u.id == tid then ⟨u.id, count⟩ else u) }
      if count ≤ 0 then
        triggerEmergency locOk
          { s1 with timers := s1.timers.filter (fun u => u.id ≠ tid) }
      else s1

/-- One second of elapsed time: every interval live at the start of the
second fires once, in registration order. -/
def tickAll (locOk : Bool) (s : SafetyState) : SafetyState :=
  (s.timers.map (fun t => t.id)).foldl (tickTimer locOk) s

/-- Embedding of the component-teardown cleanup (`index.tsx` lines
690-694) and the relevant part of `cancelEmergency` (lines 832-835): clear
the interval referenced by `countdownRef.current`, if any. -/
def clearCountdownRef (s : SafetyState) : SafetyState :=
  match s.countdownRef with
  | some tid => { s with timers := s.timers.filter (fun t => t.id ≠ tid) }
  | none => s

/-- A concrete fix used to exercise `triggerPanicAlert` and
`calculateSpeed` at specific inputs. -/
noncomputable def sampleFix : LocationData :=
  { latitude := 12.5, longitude := 77.5, timestamp := 0,
    address := some "MG Road" }

/-- A later fix at the same spot, 1000 ms (one second) after
`sampleFix`. -/
noncomputable def sampleFixLater : LocationData :=
  { latitude := 12.5, longitude := 77.5, timestamp := 1000 }

/-- A degenerate restricted area (negative radius centred on the origin)
used to exercise the geofence check at a concrete input every fix is
outside of. -/
noncomputable def degenerateArea : RestrictedArea := ⟨0, 0, -1, "z"⟩

/-- C8: for all points `p`, `a`, `b`, the great-circle distance computed by
the haversine formula on a sphere of radius 6,371,000 m satisfies
`calculateDistance p p = 0`, `calculateDistance a b = calculateDistance b a`,
and `0 ≤ calculateDistance a b`. -/
theorem distance_algebra :
    (∀ p : Coord, calculateDistance p p = 0) ∧
    (∀ a b : Coord, calculateDistance a b = calculateDistance b a) ∧
    (∀ a b : Coord, 0 ≤ calculateDistance a b) :=
  ⟨calculateDistance_self, calculateDistance_comm, calculateDistance_nonneg⟩

/-- C9: for all fix pairs, `calculateSpeed` divides the haversine distance
by the elapsed seconds only when that elapsed time is positive, and returns
0 whenever `loc2.timestamp ≤ loc1.timestamp` — it never divides by zero or
by a negative elapsed time. -/
theorem speed_division_guard (loc1 loc2 : LocationData) :
    (loc2.timestamp ≤ loc1.timestamp → calculateSpeed loc1 loc2 = 0) ∧
    (loc1.timestamp < loc2.timestamp →
      0 < (loc2.timestamp - loc1.timestamp) / 1000 ∧
      calculateSpeed loc1 loc2 =
        calculateDistance loc1.toCoord loc2.toCoord /
          ((loc2.timestamp - loc1.timestamp) / 1000)) := by
  have h1000 : (0 : ℝ) < 1000 := by norm_num
  constructor
  · intro hle
    have hneg : ¬ (loc2.timestamp - loc1.timestamp) / 1000 > 0 := by
      rw [gt_iff_lt, lt_div_iff₀ h1000]
      linarith
    simp only [calculateSpeed, if_neg hneg]
  · intro hlt
    have hpos : (loc2.timestamp - loc1.timestamp) / 1000 > 0 := by
      rw [gt_iff_lt, lt_div_iff₀ h1000]
      linarith
    exact ⟨hpos, by simp only [calculateSpeed, if_pos hpos]⟩

/-- Witness for `speed_division_guard` at concrete fixes one second
apart. -/
theorem speed_division_guard_witness :
    calculateSpeed sampleFixLater sampleFix = 0 ∧
    calculateSpeed sampleFix sampleFixLater =
      calculateDistance sampleFix.toCoord sampleFixLater.toCoord /
        ((sampleFixLater.timestamp - sampleFix.timestamp) / 1000) :=
  ⟨(speed_division_guard sampleFixLater sampleFix).1
      (by norm_num [sampleFix, sampleFixLater]),
   ((speed_division_guard sampleFix sampleFixLater).2
      (by norm_num [sampleFix, sampleFixLater])).2⟩

/-- C6: after every fix delivered to the tracking callback the location
history holds at most 50 entries, and for any sequence of fixes the
resulting history is exactly the most recent 50 fixes in arrival order
(oldest evicted first). -/
theorem history_bounded :
    (∀ (h : List LocationData) (f : LocationData),
      (pushFix h f).length ≤ 50) ∧
    (∀ fixes : List LocationData,
      List.foldl pushFix [] fixes = lastN 50 fixes) :=
  ⟨pushFix_length_le,
   fun fixes => by simpa using foldl_pushFix fixes [] (by simp)⟩

/-- C4: for every alert-manager state, if the location fetch yields no fix
then `triggerPanicAlert` returns failure (`false`, the
location-unavailable outcome) and the alert history is unchanged — no
alert is created.  Holds for every message and every combination of
collaborator faults. -/
theorem trigger_no_fix_atomic (now : ℕ) (message : Option String)
    (backendFails notifyFails : Bool) (alertHistory : List EmergencyAlert) :
    triggerPanicAlert now message none backendFails notifyFails alertHistory
      = (false, alertHistory) := rfl

/-- C5 counterexample: when the fix is obtained but both the backend
dispatch and the contact notification fail, `triggerPanicAlert` returns a
result identical to the one of a fully successful call — plain `true` —
so, contrary to the claim, no partial-failure flag is reported to the
caller. -/
theorem trigger_partial_failure_counterexample :
    triggerPanicAlert 5 none (some sampleFix) true true []
      = triggerPanicAlert 5 none (some sampleFix) false false [] ∧
    (triggerPanicAlert 5 none (some sampleFix) true true []).1 = true :=
  ⟨rfl, rfl⟩

/-- C5 amended: when the location fix is obtained but the backend dispatch
or contact notification fails, the newly created alert remains recorded at
the head of the local alert history (no rollback) and the overall call
still succeeds; the failure is caught and logged internally and is not
reported to the caller — the result is identical to the full-success
result. -/
theorem trigger_local_durability (now : ℕ) (message : Option String)
    (location : LocationData) (backendFails notifyFails : Bool)
    (alertHistory : List EmergencyAlert) :
    (triggerPanicAlert now message (some location) backendFails notifyFails
        alertHistory).1 = true ∧
    (triggerPanicAlert now message (some location) backendFails notifyFails
        alertHistory).2
      = mkPanicAlert now message location :: alertHistory ∧
    triggerPanicAlert now message (some location) backendFails notifyFails
        alertHistory
      = triggerPanicAlert now message (some location) false false
          alertHistory :=
  ⟨rfl, rfl, rfl⟩

/-- C7: a fix is reported as violated exactly when its haversine distance
to some scanned zone's centre is at most that zone's radius; in particular
a fix at the exact centre of the configured zone with `radiusMeters =
1000` reports `true`, and a fix strictly farther than `radius` from every
zone (for instance at distance `radius + 1`) reports `false`. -/
theorem violation_predicate :
    (∀ (areas : List RestrictedArea) (location : Coord),
      (checkGeofenceViolation areas location).1 = true ↔
        ∃ area ∈ areas,
          calculateDistance location ⟨area.lat, area.lng⟩ ≤ area.radius) ∧
    (checkGeofenceViolation restrictedAreas ⟨25.5788, 91.8933⟩).1 = true ∧
    (∀ (areas : List RestrictedArea) (location : Coord),
      (∀ area ∈ areas,
        calculateDistance location ⟨area.lat, area.lng⟩ = area.radius + 1) →
      (checkGeofenceViolation areas location).1 = false) := by
  refine ⟨checkGeofenceViolation_fst_iff, ?_, ?_⟩
  · rw [checkGeofenceViolation_center]
  · intro areas location hfar
    have h := checkGeofenceViolation_far areas location (fun area ha => by
      rw [hfar area ha]; linarith)
    rw [h]

/-- Witness for `violation_predicate`: its far-fix clause applied to a
concrete fix and a concrete area list where every centre is at distance
exactly `radius + 1` from the fix. -/
theorem violation_predicate_witness :
    (checkGeofenceViolation [degenerateArea] ⟨0, 0⟩).1 = false :=
  violation_predicate.2.2 [degenerateArea] ⟨0, 0⟩ (by
    intro area ha
    simp only [List.mem_singleton] at ha
    subst ha
    simp [degenerateArea, calculateDistance_self])

/-- C10: a single geofence check scans the areas in declaration order and
behaves exactly like `List.find?` on the containment test: on the first
containing area it emits that area's single alert and returns `true`,
skipping every later area; if no area contains the fix it emits no alert
and returns `false`.  In particular at most one alert is emitted per
fix. -/
theorem at_most_one_alert_per_fix (areas : List RestrictedArea)
    (location : Coord) :
    (checkGeofenceViolation areas location =
      match areas.find? (fun area =>
          decide (calculateDistance location ⟨area.lat, area.lng⟩
            ≤ area.radius)) with
      | some area => (true, [area.name])
      | none => (false, [])) ∧
    (checkGeofenceViolation areas location).2.length ≤ 1 := by
  refine ⟨checkGeofenceViolation_eq_find areas location, ?_⟩
  rw [checkGeofenceViolation_snd_length]
  split <;> omega

/-- C1 counterexample: two consecutive fixes at the exact centre of the
"Restricted Military Zone" produce two geofence alerts, not the single
alert the de-duplication claim requires. -/
theorem geofence_dedup_counterexample :
    (processFixes restrictedAreas
      [⟨25.5788, 91.8933⟩, ⟨25.5788, 91.8933⟩]).length = 2 := by
  simp [processFixes, checkGeofenceViolation_center]

/-- C1 amended: the geofence check keeps no per-zone state and performs no
de-duplication — every fix inside a zone emits a fresh alert, so a
sequence of fixes produces exactly one alert per violating fix; in
particular two consecutive fixes inside the same zone produce two alerts
(and a fix outside followed by a fix back inside produces one alert for
the inside fix). -/
theorem geofence_alert_per_violating_fix :
    (∀ (areas : List RestrictedArea) (fixes : List Coord),
      (processFixes areas fixes).length =
        fixes.countP (fun fix => (checkGeofenceViolation areas fix).1)) ∧
    (processFixes restrictedAreas
      [⟨25.5788, 91.8933⟩, ⟨25.5788, 91.8933⟩]).length = 2 :=
  ⟨processFixes_length, by simp [processFixes, checkGeofenceViolation_center]⟩

/-- C2: starting the panic sequence from the idle state sets the counter
to 3 and each 1-second tick decrements it (3, 2, 1); after three ticks
with no cancel the component is in the active-emergency state with exactly
one sos alert triggered and no live timer; cancelling before expiry
returns the component to the idle state, clears the scheduled interval,
and triggers zero alerts. -/
theorem panic_countdown_lifecycle :
    (startPanicSequence initialSafetyState).countdown = 3 ∧
    (startPanicSequence initialSafetyState).panicPressed = true ∧
    (tickAll true (startPanicSequence initialSafetyState)).countdown = 2 ∧
    (tickAll true (tickAll true
      (startPanicSequence initialSafetyState))).countdown = 1 ∧
    ((tickAll true (tickAll true (tickAll true
        (startPanicSequence initialSafetyState)))).emergencyActive = true ∧
      (tickAll true (tickAll true (tickAll true
        (startPanicSequence initialSafetyState)))).panicPressed = false ∧
      (tickAll true (tickAll true (tickAll true
        (startPanicSequence initialSafetyState)))).sosAlerts = 1 ∧
      (tickAll true (tickAll true (tickAll true
        (startPanicSequence initialSafetyState)))).timers = []) ∧
    ((cancelPanicSequence (tickAll true
        (startPanicSequence initialSafetyState))).emergencyActive = false ∧
      (cancelPanicSequence (tickAll true
        (startPanicSequence initialSafetyState))).panicPressed = false ∧
      (cancelPanicSequence (tickAll true
        (startPanicSequence initialSafetyState))).countdown = 0 ∧
      (cancelPanicSequence (tickAll true
        (startPanicSequence initialSafetyState))).timers = [] ∧
      (cancelPanicSequence (tickAll true
        (startPanicSequence initialSafetyState))).countdownRef = none ∧
      (cancelPanicSequence (tickAll true
        (startPanicSequence initialSafetyState))).sosAlerts = 0) := by
  decide

/-- C3 counterexample: from the counting-down state (one tick after a
start: `panicPressed = true`, countdown 2, one live interval), a second
call to `startPanicSequence` is not a no-op — it resets the countdown to 3
and registers a second interval. -/
theorem panic_start_guard_counterexample :
    (tickAll true (startPanicSequence initialSafetyState)).panicPressed
      = true ∧
    (tickAll true (startPanicSequence initialSafetyState)).countdown = 2 ∧
    (tickAll true
      (startPanicSequence initialSafetyState)).timers.length = 1 ∧
    (startPanicSequence (tickAll true
      (startPanicSequence initialSafetyState))).countdown = 3 ∧
    (startPanicSequence (tickAll true
      (startPanicSequence initialSafetyState))).timers.length = 2 := by
  decide

/-- C3 amended: `startPanicSequence` has no state guard — invoked while
the countdown is already running it resets the counter to 3 and registers
a second interval; only the newest interval id is kept in `countdownRef`,
so a subsequent cancel clears only the newest interval and the first one
is orphaned (it keeps ticking, and on expiry fires its own emergency,
giving two sos alerts). -/
theorem panic_start_unguarded :
    (startPanicSequence (tickAll true
      (startPanicSequence initialSafetyState))).countdown = 3 ∧
    (startPanicSequence (tickAll true
      (startPanicSequence initialSafetyState))).timers.length = 2 ∧
    (cancelPanicSequence (startPanicSequence (tickAll true
      (startPanicSequence initialSafetyState)))).timers
      = [⟨0, 2⟩] ∧
    (tickAll true (tickAll true (tickAll true (startPanicSequence
      (tickAll true (startPanicSequence initialSafetyState)))))).sosAlerts
      = 2 ∧
    (tickAll true (tickAll true (tickAll true (startPanicSequence
      (tickAll true (startPanicSequence initialSafetyState)))))).timers
      = [] := by
  decide
